import Mathlib

/-!
Shallow embedding of the PROSIT task-descriptor core and QoS-function
framework, and proofs of the stated properties.

Sources embedded:
* the `GenericTaskDescriptor` member definitions of the translation unit
  `src/unnamed/part_001` (namespace `PrositCore` below);
* the header `src/tool/V2.0/task_descriptor.hpp` with the classes
  `GenericTaskDescriptor`, `FixedPriorityTaskDescriptor` and
  `ResourceReservationTaskDescriptor` (namespace `PrositCoreV2` below);
* the QoS functions and builders of `src/unnamed/part_000`
  (namespace `StandardQoSFun` below).

C++ `double` values are embedded as exact rationals (`ℚ`): the code only
stores, copies and compares these values or combines them with `+`, `-`, `*`
at the few small decimal constants that the properties mention, so the
rational model agrees with IEEE double arithmetic wherever a property below
evaluates it; the one place where rounding or non-finite values could matter
(the `double(Q)/double(Ts) > 1.0` test at `Ts = 0`) is modelled explicitly,
see `ratioGtOne`.

C++ exceptions (`EXC_PRINT` / `EXC_PRINT_2`, which throw an `Exc` carrying a
message) are embedded as `Except Err`, with the thrown message preserved.
-/

set_option autoImplicit false

/-- Outcome of an operation that can fail: either a thrown `Exc` with the
message built by `EXC_PRINT` / `EXC_PRINT_2`, or undefined behaviour of the
C++ source (the only occurrence in the embedded code is `%` by zero), which
the total embedding makes an explicit error value. -/
inductive Err where
  | exc (msg : String)
  | undefinedBehavior (what : String)
  deriving DecidableEq, Repr

/-- Modelled from the spec: `PrositAux::pmf` (its header `pmf.hpp` is missing
from src) is an external probability-mass-function value type; the core only
constructs it, stores it and, for periodic tasks, sets probability 1 at the
period value. It is embedded as the list of its (value, probability) points. -/
structure Pmf where
  points : List (Nat × ℚ)
  deriving DecidableEq, Repr

/-- The pmf `set(v, p)` operation used by the periodic-task constructor. -/
def Pmf.set (f : Pmf) (v : Nat) (p : ℚ) : Pmf :=
  ⟨f.points ++ [(v, p)]⟩

/-- Modelled from the spec: `DeadlineProbabilityMap` (typedef in the missing
header `prosit_types.hpp`) is an ordered associative structure from a
deadline value to its probability, with unique keys; it is embedded as an
association list, the key order being irrelevant to every property below. -/
abbrev DeadlineProbabilityMap : Type := List (Nat × ℚ)

/-- Key lookup in the deadline map (`probabilistic_deadlines.find(deadline)`
of the source, reduced to the association it designates). -/
def lookupD (m : DeadlineProbabilityMap) (d : Nat) : Option ℚ :=
  match m with
  | [] => none
  | e :: r => if e.1 = d then some e.2 else lookupD r d

namespace PrositCore

/-- Modelled from the spec: the class declaration for the
`GenericTaskDescriptor` member functions implemented in
`src/unnamed/part_001` is missing from src (only the translation unit is
present); the fields follow the spec data model §3: `name`, the
`deadline_step` granularity, the deadline–probability map, the non-owning
solver reference (abstracted to a presence flag, the solver itself being
passed explicitly to the functions that call it) and the `solved` cache
flag. The pmf fields `C` and `Z` are omitted: no embedded member function
reads them. -/
structure Task where
  name : String
  deadline_step : Nat
  probabilistic_deadlines : DeadlineProbabilityMap
  has_solver : Bool
  solved : Bool
  deriving DecidableEq, Repr

/-- Modelled from the spec: the solver interface
(`solve(deadlineProbabilityMap, deadlineStep) -> success|failure`, missing
from src) receives the full deadline set and the granularity and either
fills in the probabilities in place or fails; failure is an explicit error.
An in-place fill preserves the key set, so a successful solve is embedded as
the function giving each deadline its computed probability. -/
def SolveFun : Type :=
  DeadlineProbabilityMap → Nat → Except Err (Nat → ℚ)

/-- Applying a successful solve's in-place fill to the map. -/
def fillMap (m : DeadlineProbabilityMap) (f : Nat → ℚ) : DeadlineProbabilityMap :=
  m.map fun e => (e.1, f e.1)

/-- `GenericTaskDescriptor::insert_deadline` of `src/unnamed/part_001`:
guard `deadline % deadline_step` (C++ `%` by zero is undefined behaviour,
made an explicit error branch here), then `probabilistic_deadlines.insert`
of the entry `(deadline, 0.0)`, which fails on a duplicate key. The
`solved` flag is not touched. -/
def insert_deadline (t : Task) (deadline : Nat) : Except Err Task :=
  if t.deadline_step = 0 then
    .error (.undefinedBehavior "deadline % deadline_step with deadline_step == 0")
  else if deadline % t.deadline_step ≠ 0 then
    .error (.exc ("Wrong deadline values set for task " ++ t.name))
  else if (lookupD t.probabilistic_deadlines deadline).isSome then
    .error (.exc ("cannot create deadline for task " ++ t.name))
  else
    .ok { t with probabilistic_deadlines :=
                   t.probabilistic_deadlines ++ [(deadline, 0)] }

/-- `GenericTaskDescriptor::compute_probability` of `src/unnamed/part_001`:
fails if no solver is set, fails if the deadline map is empty, returns
immediately if `solved`, and otherwise calls
`probability_solver->solve(probabilistic_deadlines, deadline_step)`; note
that the source sets no flag after the call. The second component counts
the solver invocations the call performs (0 or 1). -/
def compute_probability (sv : SolveFun) (t : Task) : Except Err Task × Nat :=
  if t.has_solver = false then
    (.error (.exc ("Probability solver unset for task " ++ t.name)), 0)
  else if t.probabilistic_deadlines.isEmpty then
    (.error (.exc ("No deadline specified for task " ++ t.name)), 0)
  else if t.solved then
    (.ok t, 0)
  else
    match sv t.probabilistic_deadlines t.deadline_step with
    | .error e => (.error e, 1)
    | .ok f =>
        (.ok { t with probabilistic_deadlines :=
                        fillMap t.probabilistic_deadlines f }, 1)

/-- `GenericTaskDescriptor::get_probability` of `src/unnamed/part_001`: the
iterator `it = probabilistic_deadlines.find(deadline)` is obtained first;
then, if not `solved`, `compute_probability()` runs (any exception it throws
propagates); only then is `it` compared with `end()` and dereferenced. The
iterator found before the solve designates an entry whose value the in-place
fill updates, so the returned probability is read from the post-solve map
(the final `none` branch is unreachable because the fill preserves keys).
The second component counts solver invocations. -/
def get_probability (sv : SolveFun) (t : Task) (deadline : Nat) :
    Except Err (ℚ × Task) × Nat :=
  match (if t.solved = false then compute_probability sv t else (.ok t, 0) :
      Except Err Task × Nat) with
  | (.error e, n) => (.error e, n)
  | (.ok t1, n) =>
      match lookupD t.probabilistic_deadlines deadline with
      | none => (.error (.exc ("Deadline does not exist for task " ++ t.name)), n)
      | some _ =>
          match lookupD t1.probabilistic_deadlines deadline with
          | some p => (.ok (p, t1), n)
          | none =>
              (.error (.exc ("Deadline does not exist for task " ++ t.name)), n)

/-- `GenericTaskDescriptor::set_solver` of `src/unnamed/part_001`: stores the
solver reference, resets `solved` to false and registers the task with the
solver (an external side effect with no bearing on the task state). -/
def set_solver (t : Task) : Task :=
  { t with has_solver := true, solved := false }

end PrositCore

namespace PrositCoreV2

/-- The `GenericTaskDescriptor` class of `src/tool/V2.0/task_descriptor.hpp`:
name, the two distributions, the `verbose` and `periodic` flags, the period
`P`, the granularity `deadline_step` and the deadline–probability map
(default-constructed empty). The raw `Solver *` member is left uninitialised
by both constructors and is read by no member of this header, so it is
omitted. -/
structure GenericTaskDescriptor where
  name : String
  C : Pmf
  Z : Pmf
  verbose : Bool
  periodic : Bool
  P : Nat
  deadline_step : Nat
  probabilistic_deadlines : DeadlineProbabilityMap
  deriving DecidableEq, Repr

namespace GenericTaskDescriptor

/-- The constructor for aperiodic tasks: `verbose(false)`, `periodic(false)`,
`P(0)`, `deadline_step(0)`, empty deadline map. -/
def mkAperiodic (nm : String) (Cd Zd : Pmf) : GenericTaskDescriptor :=
  { name := nm, C := Cd, Z := Zd, verbose := false, periodic := false,
    P := 0, deadline_step := 0, probabilistic_deadlines := [] }

/-- The constructor for periodic tasks: `Z` is a fresh pmf on which
`Z->set(Pd, 1.0)` is called, `periodic(true)`, `P(Pd)`, `deadline_step(0)`. -/
def mkPeriodic (nm : String) (Cd : Pmf) (Pd : Nat) : GenericTaskDescriptor :=
  { name := nm, C := Cd, Z := Pmf.set ⟨[]⟩ Pd 1, verbose := false,
    periodic := true, P := Pd, deadline_step := 0,
    probabilistic_deadlines := [] }

/-- `set_verbose`: stores the new flag and returns the old one. -/
def set_verbose (t : GenericTaskDescriptor) (verbosed : Bool) :
    Bool × GenericTaskDescriptor :=
  (t.verbose, { t with verbose := verbosed })

/-- `is_periodic`. -/
def is_periodic (t : GenericTaskDescriptor) : Bool :=
  t.periodic

/-- `get_period`: exception for an aperiodic task. -/
def get_period (t : GenericTaskDescriptor) : Except Err Nat :=
  if t.periodic = false then
    .error (.exc ("Period wrongly required for aperiodic task " ++ t.name))
  else
    .ok t.P

/-- `get_interarrival_time`: exception for a periodic task. -/
def get_interarrival_time (t : GenericTaskDescriptor) : Except Err Pmf :=
  if t.periodic then
    .error (.exc ("Interarrival time wrongly required for periodic task " ++ t.name))
  else
    .ok t.Z

/-- `insert_deadline` of the header (textually the same body as the one in
`src/unnamed/part_001`): guard `deadline % deadline_step` (C++ `%` by zero
is undefined behaviour, made an explicit error branch here), then insert of
`(deadline, 0.0)`, failing on a duplicate key. -/
def insert_deadline (t : GenericTaskDescriptor) (deadline : Nat) :
    Except Err GenericTaskDescriptor :=
  if t.deadline_step = 0 then
    .error (.undefinedBehavior "deadline % deadline_step with deadline_step == 0")
  else if deadline % t.deadline_step ≠ 0 then
    .error (.exc ("Wrong deadline values set for task " ++ t.name))
  else if (lookupD t.probabilistic_deadlines deadline).isSome then
    .error (.exc ("cannot create deadline for task " ++ t.name))
  else
    .ok { t with probabilistic_deadlines :=
                   t.probabilistic_deadlines ++ [(deadline, 0)] }

end GenericTaskDescriptor

/-- The mutating operations of the public `GenericTaskDescriptor` interface
of the header (the remaining public members — `is_periodic`, `get_period`,
`get_computation_time`, `get_interarrival_time`, `get_probability` — are
`const`, and `compute_probability` is pure virtual with no implementation in
this header). -/
inductive PublicOp where
  | set_verbose (b : Bool)
  | insert_deadline (d : Nat)
  deriving DecidableEq, Repr

/-- Effect of one public mutating operation on the object; a thrown
exception leaves the object as it was (the caller still holds it). -/
def applyOp (t : GenericTaskDescriptor) (op : PublicOp) : GenericTaskDescriptor :=
  match op with
  | .set_verbose b => (GenericTaskDescriptor.set_verbose t b).2
  | .insert_deadline d =>
      match GenericTaskDescriptor.insert_deadline t d with
      | .ok t1 => t1
      | .error _ => t

/-- A task after a sequence of public mutating operations. -/
def runOps (t : GenericTaskDescriptor) (ops : List PublicOp) :
    GenericTaskDescriptor :=
  ops.foldl applyOp t

/-- The `FixedPriorityTaskDescriptor` class of the header: the base object
plus the `priority` member. -/
structure FixedPriorityTaskDescriptor where
  base : GenericTaskDescriptor
  priority : Nat
  deriving DecidableEq, Repr

namespace FixedPriorityTaskDescriptor

/-- The aperiodic constructor: builds the base, then fails if
`priorityd > 99`, else stores the priority. -/
def mkAperiodic (nm : String) (Cd Zd : Pmf) (priorityd : Nat) :
    Except Err FixedPriorityTaskDescriptor :=
  if priorityd > 99 then
    .error (.exc ("Priority out of range for task " ++ nm))
  else
    .ok ⟨GenericTaskDescriptor.mkAperiodic nm Cd Zd, priorityd⟩

/-- The periodic constructor: builds the base, then fails if
`priorityd > 99`, else stores the priority. -/
def mkPeriodic (nm : String) (Cd : Pmf) (Pd : Nat) (priorityd : Nat) :
    Except Err FixedPriorityTaskDescriptor :=
  if priorityd > 99 then
    .error (.exc ("Priority out of range for task " ++ nm))
  else
    .ok ⟨GenericTaskDescriptor.mkPeriodic nm Cd Pd, priorityd⟩

/-- `get_priority`. -/
def get_priority (t : FixedPriorityTaskDescriptor) : Nat :=
  t.priority

/-- `set_priority`: stores the new priority unconditionally and returns the
old one; the source performs no range check here. -/
def set_priority (t : FixedPriorityTaskDescriptor) (priorityd : Nat) :
    Nat × FixedPriorityTaskDescriptor :=
  (t.priority, { t with priority := priorityd })

end FixedPriorityTaskDescriptor

/-- The C++ test `double(Q)/double(Ts) > 1.0` on `int` operands. For
`Ts ≠ 0` the `int` values convert to doubles exactly (|value| < 2^31 < 2^53)
and the rounded double quotient compares with the representable 1.0 exactly
as the rational quotient does (for `Ts > 0`, `Q/Ts > 1` iff `Q ≥ Ts + 1`,
and `1 + 1/Ts` is at least an ulp above 1; symmetrically for `Ts < 0`), so
that case is embedded as the exact rational comparison. For `Ts = 0` IEEE
division yields `+inf` (`Q > 0`), `-inf` (`Q < 0`) or `NaN` (`Q = 0`), so
the test holds exactly when `Q > 0`. -/
def ratioGtOne (Q Ts : Int) : Bool :=
  if Ts = 0 then decide (0 < Q)
  else decide ((1 : ℚ) < (Q : ℚ) / (Ts : ℚ))

/-- The `ResourceReservationTaskDescriptor` class of the header: the base
object plus the budget `Q` and the server period `Ts` (both `int`). -/
structure ResourceReservationTaskDescriptor where
  base : GenericTaskDescriptor
  Q : Int
  Ts : Int
  deriving DecidableEq, Repr

namespace ResourceReservationTaskDescriptor

/-- The constructor: builds the base and stores `Q(Qd)`, `Ts(Tsd)`, then
fails if `double(Qd)/double(Tsd) > 1.0` (on the throw the object is never
produced); no other validation is performed. -/
def mk? (nm : String) (Cd Zd : Pmf) (Qd Tsd : Int) :
    Except Err ResourceReservationTaskDescriptor :=
  if ratioGtOne Qd Tsd then
    .error (.exc ("Server period period too small for task" ++ nm))
  else
    .ok ⟨GenericTaskDescriptor.mkAperiodic nm Cd Zd, Qd, Tsd⟩

/-- `get_budget`. -/
def get_budget (t : ResourceReservationTaskDescriptor) : Int :=
  t.Q

/-- `get_server_period`. -/
def get_server_period (t : ResourceReservationTaskDescriptor) : Int :=
  t.Ts

/-- `set_budget`: fails if `double(Qd)/Ts > 1.0`, else commits `Q = Qd`;
the check precedes the assignment, so a failing call changes nothing. -/
def set_budget (t : ResourceReservationTaskDescriptor) (Qd : Int) :
    Except Err ResourceReservationTaskDescriptor :=
  if ratioGtOne Qd t.Ts then
    .error (.exc ("budget too large for object" ++ t.base.name))
  else
    .ok { t with Q := Qd }

/-- `set_server_period`: fails if `double(Q)/double(Tsd) > 1.0`, else
commits `Ts = Tsd`; the check precedes the assignment. -/
def set_server_period (t : ResourceReservationTaskDescriptor) (Tsd : Int) :
    Except Err ResourceReservationTaskDescriptor :=
  if ratioGtOne t.Q Tsd then
    .error (.exc ("server period too small for task " ++ t.base.name))
  else
    .ok { t with Ts := Tsd }

end ResourceReservationTaskDescriptor

end PrositCoreV2

namespace StandardQoSFun

/-- The `LinearQoSFun` object of `src/unnamed/part_000`: shaping parameters
`scale`, `pmin`, `pmax`, `offset`. -/
structure LinearQoSFun where
  scale : ℚ
  pmin : ℚ
  pmax : ℚ
  offset : ℚ
  deriving DecidableEq, Repr

/-- The `LinearQoSFun` constructor: stores the four parameters and throws if
`pmaxd < pmind` or `scaled < 0`. -/
def LinearQoSFun.mk? (scaled pmind pmaxd offsetd : ℚ) :
    Except Err LinearQoSFun :=
  if pmaxd < pmind ∨ scaled < 0 then
    .error (.exc "wrong initialisation parameters")
  else
    .ok ⟨scaled, pmind, pmaxd, offsetd⟩

/-- `LinearQoSFun::eval`: `offset` up to `pmin`, the saturated value past
`pmax`, the linear ramp in between. -/
def LinearQoSFun.eval (f : LinearQoSFun) (prob : ℚ) : ℚ :=
  if prob ≤ f.pmin then f.offset
  else if prob > f.pmax then f.offset + f.scale * (f.pmax - f.pmin)
  else f.scale * (prob - f.pmin) + f.offset

/-- The spec's piecewise description of the linear QoS shape (spec §3):
flat at `offset` below `pmin`, linear with slope `scale` between `pmin` and
`pmax`, flat at `offset + scale*(pmax-pmin)` above `pmax`. Stated as a
second definition to be compared with the source's `eval`. -/
def LinearQoSFun.evalSpec (f : LinearQoSFun) (prob : ℚ) : ℚ :=
  if prob ≤ f.pmin then f.offset
  else if prob ≤ f.pmax then f.scale * (prob - f.pmin) + f.offset
  else f.offset + f.scale * (f.pmax - f.pmin)

/-- The `QuadraticQoSFun` object of `src/unnamed/part_000`: shaping
parameters `scale`, `pmin`, `pmax`. -/
structure QuadraticQoSFun where
  scale : ℚ
  pmin : ℚ
  pmax : ℚ
  deriving DecidableEq, Repr

/-- The `QuadraticQoSFun` constructor: stores the three parameters and
throws if `pmaxd < pmind` or `scaled < 0`. -/
def QuadraticQoSFun.mk? (scaled pmind pmaxd : ℚ) :
    Except Err QuadraticQoSFun :=
  if pmaxd < pmind ∨ scaled < 0 then
    .error (.exc "wrong initialisation parameters")
  else
    .ok ⟨scaled, pmind, pmaxd⟩

/-- `QuadraticQoSFun::eval`: `0` up to `pmin`, the saturated value past
`pmax`, the quadratic ramp in between. -/
def QuadraticQoSFun.eval (f : QuadraticQoSFun) (prob : ℚ) : ℚ :=
  if prob ≤ f.pmin then 0
  else if prob > f.pmax then f.scale * (f.pmax - f.pmin) * (f.pmax - f.pmin)
  else f.scale * (prob - f.pmin) * (prob - f.pmin)

/-- The spec's piecewise description of the quadratic QoS shape (spec §3):
zero below `pmin`, `scale*(p-pmin)^2` between the bounds, saturating at
`scale*(pmax-pmin)^2` above `pmax`. Stated as a second definition to be
compared with the source's `eval`. -/
def QuadraticQoSFun.evalSpec (f : QuadraticQoSFun) (prob : ℚ) : ℚ :=
  if prob ≤ f.pmin then 0
  else if prob ≤ f.pmax then f.scale * (prob - f.pmin) * (prob - f.pmin)
  else f.scale * (f.pmax - f.pmin) * (f.pmax - f.pmin)

/-- The parameter bundles reaching `create_instance`. Both builder bodies in
`src/unnamed/part_000` open with `dynamic_cast<LinearQoSFunParameters*>(t)`
— the quadratic builder uses the same cast target as the linear one — so
the one concrete type the visible code distinguishes is
`LinearQoSFunParameters` (constructor `linear`, carrying the fields `scale`,
`pmin`, `pmax` and the optional `offset` its `parse_parameters` produces).
The constructor `other` stands for a bundle of any other concrete
`QoSFactory::QoSFunParameters` subclass (the registry is generic over
product families, the hierarchy itself being in the missing header
`standard_qosfun.hpp`): on such a bundle the cast yields null. -/
inductive QoSFunParameters where
  | linear (scale pmin pmax offset : ℚ)
  | other
  deriving DecidableEq, Repr

/-- `LinearQoSFunBuilder::create_instance` of `src/unnamed/part_000`:
`dynamic_cast` to `LinearQoSFunParameters` (null for any other concrete
type), then the builder's probability range check
`pmin > pmax ∨ pmin < 0 ∨ pmin > 1 ∨ pmax < 0 ∨ pmax > 1`
(note: no `scale` check at this layer), then the `LinearQoSFun`
constructor, whose own check can still throw. -/
def LinearQoSFunBuilder.create_instance (t : QoSFunParameters) :
    Except Err LinearQoSFun :=
  match t with
  | .other => .error (.exc "wrong parameter type")
  | .linear scale pmin pmax offset =>
      if pmin > pmax ∨ pmin < 0 ∨ pmin > 1 ∨ pmax < 0 ∨ pmax > 1 then
        .error (.exc "wrong probability limits")
      else
        LinearQoSFun.mk? scale pmin pmax offset

/-- `QuadraticQoSFunBuilder::create_instance` of `src/unnamed/part_000`:
the `dynamic_cast` target is `LinearQoSFunParameters` — the same as in the
linear builder — so a bundle of the linear builder's concrete type passes
the cast here too, and `p->scale`, `p->pmin`, `p->pmax` are read from it
(the offset field is ignored); then the same probability range check as the
linear builder (again no `scale` check), then the `QuadraticQoSFun`
constructor, whose own check can still throw. -/
def QuadraticQoSFunBuilder.create_instance (t : QoSFunParameters) :
    Except Err QuadraticQoSFun :=
  match t with
  | .other => .error (.exc "wrong parameter type")
  | .linear scale pmin pmax _ =>
      if pmin > pmax ∨ pmin < 0 ∨ pmin > 1 ∨ pmax < 0 ∨ pmax > 1 then
        .error (.exc "wrong probability limits")
      else
        QuadraticQoSFun.mk? scale pmin pmax

end StandardQoSFun

namespace StandardQoSFun

theorem linear_eval_eq_spec (f : LinearQoSFun) (prob : ℚ) :
    f.eval prob = f.evalSpec prob := by
  unfold LinearQoSFun.eval LinearQoSFun.evalSpec
  split_ifs <;> first | rfl | linarith

theorem quadratic_eval_eq_spec (f : QuadraticQoSFun) (prob : ℚ) :
    f.eval prob = f.evalSpec prob := by
  unfold QuadraticQoSFun.eval QuadraticQoSFun.evalSpec
  split_ifs <;> first | rfl | linarith

end StandardQoSFun

/-- C8: `LinearQoSFun.eval` and `QuadraticQoSFun.eval` equal the spec's
piecewise definitions, and at the stated concrete parameters they take the
stated values: for `LinearQoSFun(scale=2, pmin=0.5, pmax=0.9, offset=1)`,
`eval(0.3) = 1`, `eval(0.7) = 1.4`, `eval(0.95) = 1.8`; for
`QuadraticQoSFun(scale=3, pmin=0.2, pmax=0.6)`, `eval(0.1) = 0`,
`eval(0.4) = 0.12`, `eval(0.8) = 0.48`. -/
theorem C8_qos_eval_values :
    (∀ (f : StandardQoSFun.LinearQoSFun) (prob : ℚ),
        f.eval prob = f.evalSpec prob) ∧
    (∀ (f : StandardQoSFun.QuadraticQoSFun) (prob : ℚ),
        f.eval prob = f.evalSpec prob) ∧
    StandardQoSFun.LinearQoSFun.eval ⟨2, 1/2, 9/10, 1⟩ (3/10) = 1 ∧
    StandardQoSFun.LinearQoSFun.eval ⟨2, 1/2, 9/10, 1⟩ (7/10) = 14/10 ∧
    StandardQoSFun.LinearQoSFun.eval ⟨2, 1/2, 9/10, 1⟩ (95/100) = 18/10 ∧
    StandardQoSFun.QuadraticQoSFun.eval ⟨3, 2/10, 6/10⟩ (1/10) = 0 ∧
    StandardQoSFun.QuadraticQoSFun.eval ⟨3, 2/10, 6/10⟩ (4/10) = 12/100 ∧
    StandardQoSFun.QuadraticQoSFun.eval ⟨3, 2/10, 6/10⟩ (8/10) = 48/100 := by
  refine ⟨StandardQoSFun.linear_eval_eq_spec,
          StandardQoSFun.quadratic_eval_eq_spec, ?_, ?_, ?_, ?_, ?_, ?_⟩ <;>
    norm_num [StandardQoSFun.LinearQoSFun.eval, StandardQoSFun.QuadraticQoSFun.eval]

/-- C9 counterexample: the claim says `create_instance` fails with
TypeMismatch when the bundle's concrete type does not match the builder;
but the quadratic builder's `dynamic_cast` targets `LinearQoSFunParameters`
(src/unnamed/part_000 line 49), the linear builder's own bundle type, so
handing the quadratic builder a valid linear bundle succeeds — it builds a
`QuadraticQoSFun` from the bundle's scale, pmin and pmax — instead of
failing with the type-mismatch error. -/
theorem C9_quadratic_accepts_linear_bundle_cex :
    StandardQoSFun.QuadraticQoSFunBuilder.create_instance (.linear 1 0 1 0) =
      .ok ⟨1, 0, 1⟩ := by
  simp only [StandardQoSFun.QuadraticQoSFunBuilder.create_instance,
    StandardQoSFun.QuadraticQoSFun.mk?]
  rw [if_neg (by norm_num), if_neg (by norm_num)]

/-- C9 amended: both builders cast the bundle to `LinearQoSFunParameters`,
so each fails with the type-mismatch error exactly when the bundle is of
some other concrete type — in particular the quadratic builder accepts the
linear builder's bundle, reading its scale, pmin and pmax and ignoring its
offset. Given a `LinearQoSFunParameters` bundle, either `create_instance`
succeeds exactly when `pmin ≤ pmax`, both bounds lie in `[0,1]` and
`scale ≥ 0`; a range violation raises the builder's "wrong probability
limits" error, while a negative scale alone is caught by the constructor's
re-check ("wrong initialisation parameters"), so `create_instance` as a
whole still fails; on success the linear builder returns the function with
the bundle's four parameters and the quadratic builder the function with
its scale, pmin and pmax. -/
theorem C9_create_instance_validation :
    (StandardQoSFun.LinearQoSFunBuilder.create_instance .other =
        .error (.exc "wrong parameter type")) ∧
    (StandardQoSFun.QuadraticQoSFunBuilder.create_instance .other =
        .error (.exc "wrong parameter type")) ∧
    (∀ s p q o : ℚ,
      (∃ f, StandardQoSFun.LinearQoSFunBuilder.create_instance
          (.linear s p q o) = .ok f) ↔
        (p ≤ q ∧ 0 ≤ p ∧ p ≤ 1 ∧ 0 ≤ q ∧ q ≤ 1 ∧ 0 ≤ s)) ∧
    (∀ s p q o : ℚ,
      (∃ f, StandardQoSFun.QuadraticQoSFunBuilder.create_instance
          (.linear s p q o) = .ok f) ↔
        (p ≤ q ∧ 0 ≤ p ∧ p ≤ 1 ∧ 0 ≤ q ∧ q ≤ 1 ∧ 0 ≤ s)) ∧
    (∀ s p q o : ℚ, p ≤ q → 0 ≤ p → p ≤ 1 → 0 ≤ q → q ≤ 1 → s < 0 →
      StandardQoSFun.LinearQoSFunBuilder.create_instance (.linear s p q o) =
        .error (.exc "wrong initialisation parameters") ∧
      StandardQoSFun.QuadraticQoSFunBuilder.create_instance
        (.linear s p q o) =
        .error (.exc "wrong initialisation parameters")) ∧
    (∀ s p q o : ℚ, p ≤ q → 0 ≤ p → p ≤ 1 → 0 ≤ q → q ≤ 1 → 0 ≤ s →
      StandardQoSFun.LinearQoSFunBuilder.create_instance (.linear s p q o) =
        .ok ⟨s, p, q, o⟩ ∧
      StandardQoSFun.QuadraticQoSFunBuilder.create_instance
        (.linear s p q o) = .ok ⟨s, p, q⟩) := by
  refine ⟨rfl, rfl, ?_, ?_, ?_, ?_⟩
  · intro s p q o
    simp only [StandardQoSFun.LinearQoSFunBuilder.create_instance,
      StandardQoSFun.LinearQoSFun.mk?]
    constructor
    · rintro ⟨f, hf⟩
      split_ifs at hf with h1 h2
      push_neg at h1
      refine ⟨h1.1, h1.2.1, ?_, ?_, h1.2.2.2.2, ?_⟩ <;> push_neg at h2 <;>
        first
          | exact h1.2.2.1
          | exact h1.2.2.2.1
          | exact h2.2
    · rintro ⟨hpq, hp0, hp1, hq0, hq1, hs⟩
      rw [if_neg (by push_neg; exact ⟨hpq, hp0, hp1, hq0, hq1⟩),
          if_neg (by push_neg; exact ⟨hpq, hs⟩)]
      exact ⟨_, rfl⟩
  · intro s p q o
    simp only [StandardQoSFun.QuadraticQoSFunBuilder.create_instance,
      StandardQoSFun.QuadraticQoSFun.mk?]
    constructor
    · rintro ⟨f, hf⟩
      split_ifs at hf with h1 h2
      push_neg at h1
      refine ⟨h1.1, h1.2.1, ?_, ?_, h1.2.2.2.2, ?_⟩ <;> push_neg at h2 <;>
        first
          | exact h1.2.2.1
          | exact h1.2.2.2.1
          | exact h2.2
    · rintro ⟨hpq, hp0, hp1, hq0, hq1, hs⟩
      rw [if_neg (by push_neg; exact ⟨hpq, hp0, hp1, hq0, hq1⟩),
          if_neg (by push_neg; exact ⟨hpq, hs⟩)]
      exact ⟨_, rfl⟩
  · intro s p q o hpq hp0 hp1 hq0 hq1 hs
    simp only [StandardQoSFun.LinearQoSFunBuilder.create_instance,
      StandardQoSFun.QuadraticQoSFunBuilder.create_instance,
      StandardQoSFun.LinearQoSFun.mk?, StandardQoSFun.QuadraticQoSFun.mk?]
    rw [if_neg (by push_neg; exact ⟨hpq, hp0, hp1, hq0, hq1⟩),
        if_pos (Or.inr hs),
        if_neg (by push_neg; exact ⟨hpq, hp0, hp1, hq0, hq1⟩),
        if_pos (Or.inr hs)]
    exact ⟨rfl, rfl⟩
  · intro s p q o hpq hp0 hp1 hq0 hq1 hs
    simp only [StandardQoSFun.LinearQoSFunBuilder.create_instance,
      StandardQoSFun.QuadraticQoSFunBuilder.create_instance,
      StandardQoSFun.LinearQoSFun.mk?, StandardQoSFun.QuadraticQoSFun.mk?]
    rw [if_neg (by push_neg; exact ⟨hpq, hp0, hp1, hq0, hq1⟩),
        if_neg (by push_neg; exact ⟨hpq, hs⟩),
        if_neg (by push_neg; exact ⟨hpq, hp0, hp1, hq0, hq1⟩),
        if_neg (by push_neg; exact ⟨hpq, hs⟩)]
    exact ⟨rfl, rfl⟩

/-- C9 witness: at concrete bundles — the spec's own `scale = -1` example
fails through the constructor's re-check in both builders, and a valid
linear bundle with offset 5 succeeds in both, the quadratic builder
ignoring the offset. -/
theorem C9_create_instance_validation_witness :
    (StandardQoSFun.LinearQoSFunBuilder.create_instance (.linear (-1) 0 1 0) =
        .error (.exc "wrong initialisation parameters") ∧
      StandardQoSFun.QuadraticQoSFunBuilder.create_instance
        (.linear (-1) 0 1 0) =
        .error (.exc "wrong initialisation parameters")) ∧
    (StandardQoSFun.LinearQoSFunBuilder.create_instance (.linear 2 0 1 5) =
        .ok ⟨2, 0, 1, 5⟩ ∧
      StandardQoSFun.QuadraticQoSFunBuilder.create_instance
        (.linear 2 0 1 5) = .ok ⟨2, 0, 1⟩) :=
  ⟨C9_create_instance_validation.2.2.2.2.1 (-1) 0 1 0 (by norm_num)
      (by norm_num) (by norm_num) (by norm_num) (by norm_num) (by norm_num),
   C9_create_instance_validation.2.2.2.2.2 2 0 1 5 (by norm_num)
      (by norm_num) (by norm_num) (by norm_num) (by norm_num) (by norm_num)⟩

/-- C4 counterexample: the claim says `set_priority` fails for an
out-of-range value and leaves the prior priority intact; on a concretely
constructed descriptor with priority 5, `set_priority 100` instead returns
the old priority normally and installs 100, a value above 99, so the
claimed `[0,99]` invariant does not hold at all times. -/
theorem C4_set_priority_unchecked_cex :
    (PrositCoreV2.FixedPriorityTaskDescriptor.set_priority
      ⟨PrositCoreV2.GenericTaskDescriptor.mkAperiodic "t" ⟨[]⟩ ⟨[]⟩, 5⟩
      100).1 = 5 ∧
    99 < (PrositCoreV2.FixedPriorityTaskDescriptor.set_priority
      ⟨PrositCoreV2.GenericTaskDescriptor.mkAperiodic "t" ⟨[]⟩ ⟨[]⟩, 5⟩
      100).2.priority := by
  exact ⟨rfl, by decide⟩

/-- C4 amended: the `[0,99]` bound on the priority is enforced only by the
two constructors, which fail exactly for a priority argument above 99 and
otherwise install it; `set_priority` performs no range check — it installs
any value, including values above 99, and returns the prior priority. -/
theorem C4_priority_checked_at_construction_only :
    (∀ (nm : String) (Cd Zd : Pmf) (p : Nat),
      PrositCoreV2.FixedPriorityTaskDescriptor.mkAperiodic nm Cd Zd p =
          .error (.exc ("Priority out of range for task " ++ nm)) ↔ 99 < p) ∧
    (∀ (nm : String) (Cd : Pmf) (Pd p : Nat),
      PrositCoreV2.FixedPriorityTaskDescriptor.mkPeriodic nm Cd Pd p =
          .error (.exc ("Priority out of range for task " ++ nm)) ↔ 99 < p) ∧
    (∀ (nm : String) (Cd Zd : Pmf) (p : Nat), p ≤ 99 →
      PrositCoreV2.FixedPriorityTaskDescriptor.mkAperiodic nm Cd Zd p =
        .ok ⟨PrositCoreV2.GenericTaskDescriptor.mkAperiodic nm Cd Zd, p⟩) ∧
    (∀ (nm : String) (Cd : Pmf) (Pd p : Nat), p ≤ 99 →
      PrositCoreV2.FixedPriorityTaskDescriptor.mkPeriodic nm Cd Pd p =
        .ok ⟨PrositCoreV2.GenericTaskDescriptor.mkPeriodic nm Cd Pd, p⟩) ∧
    (∀ (t : PrositCoreV2.FixedPriorityTaskDescriptor) (pd : Nat),
      PrositCoreV2.FixedPriorityTaskDescriptor.set_priority t pd =
        (t.priority, { t with priority := pd })) := by
  refine ⟨?_, ?_, ?_, ?_, fun t pd => rfl⟩
  · intro nm Cd Zd p
    unfold PrositCoreV2.FixedPriorityTaskDescriptor.mkAperiodic
    split_ifs with h
    · simp [h]
    · simp [h]
  · intro nm Cd Pd p
    unfold PrositCoreV2.FixedPriorityTaskDescriptor.mkPeriodic
    split_ifs with h
    · simp [h]
    · simp [h]
  · intro nm Cd Zd p hp
    unfold PrositCoreV2.FixedPriorityTaskDescriptor.mkAperiodic
    rw [if_neg (by omega)]
  · intro nm Cd Pd p hp
    unfold PrositCoreV2.FixedPriorityTaskDescriptor.mkPeriodic
    rw [if_neg (by omega)]

/-- C4 witness: at concrete inputs, construction with priority 100 fails,
construction with priority 5 succeeds, and `set_priority` to 100 installs
100 while returning 5. -/
theorem C4_priority_checked_at_construction_only_witness :
    PrositCoreV2.FixedPriorityTaskDescriptor.mkAperiodic "t" ⟨[]⟩ ⟨[]⟩ 5 =
      .ok ⟨PrositCoreV2.GenericTaskDescriptor.mkAperiodic "t" ⟨[]⟩ ⟨[]⟩, 5⟩ :=
  C4_priority_checked_at_construction_only.2.2.1 "t" ⟨[]⟩ ⟨[]⟩ 5 (by decide)

/-- C5: `ResourceReservationTaskDescriptor` construction fails exactly when
the `double(Q)/double(Ts) > 1.0` test holds — for a nonzero server period
that test is exactly the rational comparison `Q/Ts > 1` — and both mutators
run the same test before committing: on failure they raise and commit
nothing, on success `set_budget` changes only `Q` and `set_server_period`
changes only `Ts`; a ratio of exactly 1.0 (`Q = Ts ≠ 0`) passes the test. -/
theorem C5_rr_utilisation_guard :
    (∀ (nm : String) (Cd Zd : Pmf) (Qd Tsd : Int),
      PrositCoreV2.ratioGtOne Qd Tsd = true →
      PrositCoreV2.ResourceReservationTaskDescriptor.mk? nm Cd Zd Qd Tsd =
        .error (.exc ("Server period period too small for task" ++ nm))) ∧
    (∀ (nm : String) (Cd Zd : Pmf) (Qd Tsd : Int),
      PrositCoreV2.ratioGtOne Qd Tsd = false →
      PrositCoreV2.ResourceReservationTaskDescriptor.mk? nm Cd Zd Qd Tsd =
        .ok ⟨PrositCoreV2.GenericTaskDescriptor.mkAperiodic nm Cd Zd, Qd, Tsd⟩) ∧
    (∀ Q Ts : Int, Ts ≠ 0 →
      (PrositCoreV2.ratioGtOne Q Ts = true ↔ (1 : ℚ) < (Q : ℚ) / (Ts : ℚ))) ∧
    (∀ (t : PrositCoreV2.ResourceReservationTaskDescriptor) (Qd : Int),
      PrositCoreV2.ratioGtOne Qd t.Ts = true →
      PrositCoreV2.ResourceReservationTaskDescriptor.set_budget t Qd =
        .error (.exc ("budget too large for object" ++ t.base.name))) ∧
    (∀ (t : PrositCoreV2.ResourceReservationTaskDescriptor) (Qd : Int),
      PrositCoreV2.ratioGtOne Qd t.Ts = false →
      PrositCoreV2.ResourceReservationTaskDescriptor.set_budget t Qd =
        .ok { t with Q := Qd }) ∧
    (∀ (t : PrositCoreV2.ResourceReservationTaskDescriptor) (Tsd : Int),
      PrositCoreV2.ratioGtOne t.Q Tsd = true →
      PrositCoreV2.ResourceReservationTaskDescriptor.set_server_period t Tsd =
        .error (.exc ("server period too small for task " ++ t.base.name))) ∧
    (∀ (t : PrositCoreV2.ResourceReservationTaskDescriptor) (Tsd : Int),
      PrositCoreV2.ratioGtOne t.Q Tsd = false →
      PrositCoreV2.ResourceReservationTaskDescriptor.set_server_period t Tsd =
        .ok { t with Ts := Tsd }) ∧
    (∀ k : Int, k ≠ 0 → PrositCoreV2.ratioGtOne k k = false) := by
  refine ⟨?_, ?_, ?_, ?_, ?_, ?_, ?_, ?_⟩
  · intro nm Cd Zd Qd Tsd h
    simp [PrositCoreV2.ResourceReservationTaskDescriptor.mk?, h]
  · intro nm Cd Zd Qd Tsd h
    simp [PrositCoreV2.ResourceReservationTaskDescriptor.mk?, h]
  · intro Q Ts h
    simp [PrositCoreV2.ratioGtOne, h]
  · intro t Qd h
    simp [PrositCoreV2.ResourceReservationTaskDescriptor.set_budget, h]
  · intro t Qd h
    simp [PrositCoreV2.ResourceReservationTaskDescriptor.set_budget, h]
  · intro t Tsd h
    simp [PrositCoreV2.ResourceReservationTaskDescriptor.set_server_period, h]
  · intro t Tsd h
    simp [PrositCoreV2.ResourceReservationTaskDescriptor.set_server_period, h]
  · intro k h
    have hk : (k : ℚ) ≠ 0 := Int.cast_ne_zero.mpr h
    simp [PrositCoreV2.ratioGtOne, h, div_self hk]

/-- C5 witness: at concrete values — construction with `Q = 3, Ts = 2`
fails, construction with `Q = 2, Ts = 3` succeeds, and a ratio of exactly
1.0 (`Q = Ts = 7`) passes the test. -/
theorem C5_rr_utilisation_guard_witness :
    PrositCoreV2.ResourceReservationTaskDescriptor.mk? "t" ⟨[]⟩ ⟨[]⟩ 3 2 =
      .error (.exc ("Server period period too small for task" ++ "t")) ∧
    PrositCoreV2.ResourceReservationTaskDescriptor.mk? "t" ⟨[]⟩ ⟨[]⟩ 2 3 =
      .ok ⟨PrositCoreV2.GenericTaskDescriptor.mkAperiodic "t" ⟨[]⟩ ⟨[]⟩, 2, 3⟩ ∧
    PrositCoreV2.ratioGtOne 7 7 = false :=
  ⟨C5_rr_utilisation_guard.1 "t" ⟨[]⟩ ⟨[]⟩ 3 2
     (by unfold PrositCoreV2.ratioGtOne; norm_num),
   C5_rr_utilisation_guard.2.1 "t" ⟨[]⟩ ⟨[]⟩ 2 3
     (by unfold PrositCoreV2.ratioGtOne; norm_num),
   C5_rr_utilisation_guard.2.2.2.2.2.2.2 7 (by decide)⟩

/-- C6 counterexample: the claim says construction with a non-positive
budget fails; constructing with budget `Q = -5` and server period `Ts = 10`
in fact succeeds (the only check is the ratio test, and `-5/10 ≤ 1`). -/
theorem C6_nonpositive_budget_accepted_cex :
    PrositCoreV2.ResourceReservationTaskDescriptor.mk? "t" ⟨[]⟩ ⟨[]⟩ (-5) 10 =
      .ok ⟨PrositCoreV2.GenericTaskDescriptor.mkAperiodic "t" ⟨[]⟩ ⟨[]⟩, -5, 10⟩ := by
  have h : PrositCoreV2.ratioGtOne (-5) 10 = false := by
    unfold PrositCoreV2.ratioGtOne
    norm_num
  simp [PrositCoreV2.ResourceReservationTaskDescriptor.mk?, h]

/-- C6 amended: positivity of the budget and the server period is not
enforced anywhere — construction and the two mutators check only
`double(Q)/double(Ts) > 1.0`, so every non-positive budget passes against a
positive period, and every negative period passes against a positive
budget. -/
theorem C6_positivity_not_enforced :
    (∀ (nm : String) (Cd Zd : Pmf) (Qd Tsd : Int), Qd ≤ 0 → 0 < Tsd →
      PrositCoreV2.ResourceReservationTaskDescriptor.mk? nm Cd Zd Qd Tsd =
        .ok ⟨PrositCoreV2.GenericTaskDescriptor.mkAperiodic nm Cd Zd, Qd, Tsd⟩) ∧
    (∀ (t : PrositCoreV2.ResourceReservationTaskDescriptor) (Qd : Int),
      Qd ≤ 0 → 0 < t.Ts →
      PrositCoreV2.ResourceReservationTaskDescriptor.set_budget t Qd =
        .ok { t with Q := Qd }) ∧
    (∀ (t : PrositCoreV2.ResourceReservationTaskDescriptor) (Tsd : Int),
      Tsd < 0 → 0 < t.Q →
      PrositCoreV2.ResourceReservationTaskDescriptor.set_server_period t Tsd =
        .ok { t with Ts := Tsd }) := by
  have hfalse : ∀ Qd Tsd : Int, Qd ≤ 0 → 0 < Tsd →
      PrositCoreV2.ratioGtOne Qd Tsd = false := by
    intro Qd Tsd hQ hTs
    have h1 : (Qd : ℚ) / (Tsd : ℚ) ≤ 0 :=
      div_nonpos_iff.mpr (Or.inr ⟨by exact_mod_cast hQ,
        by exact_mod_cast le_of_lt hTs⟩)
    unfold PrositCoreV2.ratioGtOne
    rw [if_neg (by omega : Tsd ≠ 0)]
    simp only [decide_eq_false_iff_not, not_lt]
    linarith
  have hfalse2 : ∀ Q Tsd : Int, 0 < Q → Tsd < 0 →
      PrositCoreV2.ratioGtOne Q Tsd = false := by
    intro Q Tsd hQ hTs
    have h1 : (Q : ℚ) / (Tsd : ℚ) < 0 :=
      div_neg_of_pos_of_neg (by exact_mod_cast hQ) (by exact_mod_cast hTs)
    unfold PrositCoreV2.ratioGtOne
    rw [if_neg (by omega : Tsd ≠ 0)]
    simp only [decide_eq_false_iff_not, not_lt]
    linarith
  refine ⟨?_, ?_, ?_⟩
  · intro nm Cd Zd Qd Tsd hQ hTs
    simp [PrositCoreV2.ResourceReservationTaskDescriptor.mk?,
      hfalse Qd Tsd hQ hTs]
  · intro t Qd hQ hTs
    simp [PrositCoreV2.ResourceReservationTaskDescriptor.set_budget,
      hfalse Qd t.Ts hQ hTs]
  · intro t Tsd hTs hQ
    simp [PrositCoreV2.ResourceReservationTaskDescriptor.set_server_period,
      hfalse2 t.Q Tsd hQ hTs]

/-- C6 witness: at concrete values, a budget of `-5` against period `10`
constructs, `set_budget (-3)` succeeds on a descriptor with period `10`,
and `set_server_period (-2)` succeeds on a descriptor with budget `1`. -/
theorem C6_positivity_not_enforced_witness :
    PrositCoreV2.ResourceReservationTaskDescriptor.set_budget
      ⟨PrositCoreV2.GenericTaskDescriptor.mkAperiodic "t" ⟨[]⟩ ⟨[]⟩, 5, 10⟩ (-3) =
      .ok ⟨PrositCoreV2.GenericTaskDescriptor.mkAperiodic "t" ⟨[]⟩ ⟨[]⟩, -3, 10⟩ :=
  C6_positivity_not_enforced.2.1
    ⟨PrositCoreV2.GenericTaskDescriptor.mkAperiodic "t" ⟨[]⟩ ⟨[]⟩, 5, 10⟩ (-3)
    (by decide) (by decide)

namespace PrositCoreV2

theorem insert_deadline_ok_deadline_step (t : GenericTaskDescriptor)
    (d : Nat) (t1 : GenericTaskDescriptor)
    (h : GenericTaskDescriptor.insert_deadline t d = .ok t1) :
    t1.deadline_step = t.deadline_step := by
  unfold GenericTaskDescriptor.insert_deadline at h
  split_ifs at h
  injection h with h
  rw [← h]

theorem applyOp_deadline_step (t : GenericTaskDescriptor) (op : PublicOp) :
    (applyOp t op).deadline_step = t.deadline_step := by
  cases op with
  | set_verbose b => rfl
  | insert_deadline d =>
      simp only [applyOp]
      rcases h : GenericTaskDescriptor.insert_deadline t d with e | t1
      · rfl
      · exact insert_deadline_ok_deadline_step t d t1 h

theorem runOps_deadline_step (ops : List PublicOp) (t : GenericTaskDescriptor) :
    (runOps t ops).deadline_step = t.deadline_step := by
  induction ops generalizing t with
  | nil => rfl
  | cons op r ih =>
      show (runOps (applyOp t op) r).deadline_step = t.deadline_step
      rw [ih (applyOp t op), applyOp_deadline_step]

end PrositCoreV2

/-- C7: both public `GenericTaskDescriptor` constructors initialise
`deadline_step` to 0 and no public operation assigns it another value, so on
every task reachable through the public interface `insert_deadline` takes
`deadline % deadline_step` with a zero divisor — in this total embedding it
returns the explicit zero-divisor error for every deadline. -/
theorem C7_deadline_step_stays_zero :
    (∀ (nm : String) (Cd Zd : Pmf),
      (PrositCoreV2.GenericTaskDescriptor.mkAperiodic nm Cd Zd).deadline_step = 0) ∧
    (∀ (nm : String) (Cd : Pmf) (Pd : Nat),
      (PrositCoreV2.GenericTaskDescriptor.mkPeriodic nm Cd Pd).deadline_step = 0) ∧
    (∀ (nm : String) (Cd Zd : Pmf) (ops : List PrositCoreV2.PublicOp) (d : Nat),
      PrositCoreV2.GenericTaskDescriptor.insert_deadline
          (PrositCoreV2.runOps
            (PrositCoreV2.GenericTaskDescriptor.mkAperiodic nm Cd Zd) ops) d =
        .error (.undefinedBehavior
          "deadline % deadline_step with deadline_step == 0")) ∧
    (∀ (nm : String) (Cd : Pmf) (Pd : Nat) (ops : List PrositCoreV2.PublicOp)
        (d : Nat),
      PrositCoreV2.GenericTaskDescriptor.insert_deadline
          (PrositCoreV2.runOps
            (PrositCoreV2.GenericTaskDescriptor.mkPeriodic nm Cd Pd) ops) d =
        .error (.undefinedBehavior
          "deadline % deadline_step with deadline_step == 0")) := by
  refine ⟨fun nm Cd Zd => rfl, fun nm Cd Pd => rfl, ?_, ?_⟩
  · intro nm Cd Zd ops d
    unfold PrositCoreV2.GenericTaskDescriptor.insert_deadline
    rw [if_pos (by rw [PrositCoreV2.runOps_deadline_step]; rfl)]
  · intro nm Cd Pd ops d
    unfold PrositCoreV2.GenericTaskDescriptor.insert_deadline
    rw [if_pos (by rw [PrositCoreV2.runOps_deadline_step]; rfl)]

namespace PrositCore

theorem isEmpty_eq_false_of_ne_nil (m : DeadlineProbabilityMap)
    (h : m ≠ []) : m.isEmpty = false := by
  cases m
  · exact absurd rfl h
  · rfl

theorem compute_probability_solver_error (sv : SolveFun) (t : Task) (e : Err)
    (h1 : t.has_solver = true) (h2 : t.probabilistic_deadlines ≠ [])
    (h3 : t.solved = false)
    (h4 : sv t.probabilistic_deadlines t.deadline_step = .error e) :
    compute_probability sv t = (.error e, 1) := by
  unfold compute_probability
  rw [h1, isEmpty_eq_false_of_ne_nil _ h2, h3, h4]
  simp

theorem compute_probability_solver_ok (sv : SolveFun) (t : Task) (f : Nat → ℚ)
    (h1 : t.has_solver = true) (h2 : t.probabilistic_deadlines ≠ [])
    (h3 : t.solved = false)
    (h4 : sv t.probabilistic_deadlines t.deadline_step = .ok f) :
    compute_probability sv t =
      (.ok { t with probabilistic_deadlines :=
                      fillMap t.probabilistic_deadlines f }, 1) := by
  unfold compute_probability
  rw [h1, isEmpty_eq_false_of_ne_nil _ h2, h3, h4]
  simp

end PrositCore

/-- C2: when the solver reports failure, `compute_probability` on an
unsolved task with a solver attached and a non-empty deadline set surfaces
exactly that failure (after the one solver invocation), and `get_probability`
— which calls it lazily — propagates the same error to its caller; no path
turns the failure into a success. -/
theorem C2_solver_failure_propagates :
    ∀ (sv : PrositCore.SolveFun) (t : PrositCore.Task) (e : Err) (d : Nat),
      t.has_solver = true → t.probabilistic_deadlines ≠ [] →
      t.solved = false →
      sv t.probabilistic_deadlines t.deadline_step = .error e →
      PrositCore.compute_probability sv t = (.error e, 1) ∧
      PrositCore.get_probability sv t d = (.error e, 1) := by
  intro sv t e d h1 h2 h3 h4
  have hc := PrositCore.compute_probability_solver_error sv t e h1 h2 h3 h4
  refine ⟨hc, ?_⟩
  unfold PrositCore.get_probability
  rw [h3, if_pos rfl, hc]

/-- C2 witness: a concrete unsolved task with one deadline and an attached
solver that fails; both reads surface the solver's error. -/
theorem C2_solver_failure_propagates_witness :
    PrositCore.compute_probability (fun _ _ => .error (.exc "solver failed"))
        ⟨"tau", 1, [(1, 0)], true, false⟩ =
      (.error (.exc "solver failed"), 1) ∧
    PrositCore.get_probability (fun _ _ => .error (.exc "solver failed"))
        ⟨"tau", 1, [(1, 0)], true, false⟩ 1 =
      (.error (.exc "solver failed"), 1) :=
  C2_solver_failure_propagates (fun _ _ => .error (.exc "solver failed"))
    ⟨"tau", 1, [(1, 0)], true, false⟩ (.exc "solver failed") 1 rfl
    (by simp) rfl rfl

/-- C1: the claim says a successful `compute_probability` marks the task
solved so that the solver runs at most once across two reads; the code
never assigns `solved = true` (the solver, per its spec contract, only
fills in probabilities), so on the concrete unsolved task `tau` with one
registered deadline and a succeeding solver, a successful
`compute_probability` leaves `solved = false` and each of two consecutive
`get_probability(1)` calls invokes the solver once — two invocations in
total, not at most one. -/
theorem C1_solved_never_becomes_true :
    PrositCore.compute_probability (fun _ _ => .ok fun _ => 1/2)
        ⟨"tau", 1, [(1, 0)], true, false⟩ =
      (.ok ⟨"tau", 1, [(1, 1/2)], true, false⟩, 1) ∧
    (⟨"tau", 1, [(1, 1/2)], true, false⟩ : PrositCore.Task).solved = false ∧
    PrositCore.get_probability (fun _ _ => .ok fun _ => 1/2)
        ⟨"tau", 1, [(1, 0)], true, false⟩ 1 =
      (.ok (1/2, ⟨"tau", 1, [(1, 1/2)], true, false⟩), 1) ∧
    PrositCore.get_probability (fun _ _ => .ok fun _ => 1/2)
        ⟨"tau", 1, [(1, 1/2)], true, false⟩ 1 =
      (.ok (1/2, ⟨"tau", 1, [(1, 1/2)], true, false⟩), 1) :=
  ⟨rfl, rfl, rfl, rfl⟩

/-- C10: on an unsolved task with a solver attached and a non-empty
deadline map, a `get_probability` query for an unregistered deadline first
invokes the (successful) solver — the count 1 in the result — and only
afterwards raises the not-found error: the map lookup happens before the
lazy `compute_probability`, but its outcome is checked only after. -/
theorem C10_notfound_checked_after_solve :
    ∀ (sv : PrositCore.SolveFun) (t : PrositCore.Task) (d : Nat)
      (f : Nat → ℚ),
      t.has_solver = true → t.probabilistic_deadlines ≠ [] →
      t.solved = false →
      lookupD t.probabilistic_deadlines d = none →
      sv t.probabilistic_deadlines t.deadline_step = .ok f →
      PrositCore.get_probability sv t d =
        (.error (.exc ("Deadline does not exist for task " ++ t.name)), 1) := by
  intro sv t d f h1 h2 h3 h4 h5
  have hc := PrositCore.compute_probability_solver_ok sv t f h1 h2 h3 h5
  unfold PrositCore.get_probability
  rw [h3, if_pos rfl, hc, h4]

/-- C10 witness: a concrete unsolved task with the single deadline 1 and a
succeeding solver, queried at the unregistered deadline 2: the solver runs
once and the result is the not-found error. -/
theorem C10_notfound_checked_after_solve_witness :
    PrositCore.get_probability (fun _ _ => .ok fun _ => 1/2)
        ⟨"tau", 1, [(1, 0)], true, false⟩ 2 =
      (.error (.exc ("Deadline does not exist for task " ++ "tau")), 1) :=
  C10_notfound_checked_after_solve (fun _ _ => .ok fun _ => 1/2)
    ⟨"tau", 1, [(1, 0)], true, false⟩ 2 (fun _ => 1/2) rfl (by simp) rfl rfl rfl

/-- C3 counterexample: the claim says a successful `insert_deadline` marks
the task unsolved; inserting the valid fresh deadline 2 into a concrete
task whose `solved` flag is `true` succeeds yet leaves `solved = true` —
the source never touches the flag. -/
theorem C3_insert_leaves_solved_flag_cex :
    PrositCore.insert_deadline ⟨"tau", 1, [], false, true⟩ 2 =
      .ok ⟨"tau", 1, [(2, 0)], false, true⟩ :=
  rfl

/-- C3 amended: for a task with a nonzero `deadline_step`,
`insert_deadline d` succeeds iff `d` is a multiple of `deadline_step` and
not already present; a non-multiple raises the wrong-deadline error, a
duplicate raises the cannot-create error (and, the embedding being
functional, a failure changes nothing); a success appends the entry
`(d, 0.0)` and leaves every other field — the `solved` flag included —
unchanged. -/
theorem C3_insert_deadline_guard :
    ∀ (t : PrositCore.Task) (d : Nat), t.deadline_step ≠ 0 →
      ((∃ t1, PrositCore.insert_deadline t d = .ok t1) ↔
        (d % t.deadline_step = 0 ∧
          lookupD t.probabilistic_deadlines d = none)) ∧
      (d % t.deadline_step ≠ 0 →
        PrositCore.insert_deadline t d =
          .error (.exc ("Wrong deadline values set for task " ++ t.name))) ∧
      (d % t.deadline_step = 0 →
        (lookupD t.probabilistic_deadlines d).isSome →
        PrositCore.insert_deadline t d =
          .error (.exc ("cannot create deadline for task " ++ t.name))) ∧
      (∀ t1, PrositCore.insert_deadline t d = .ok t1 →
        t1 = { t with probabilistic_deadlines :=
                        t.probabilistic_deadlines ++ [(d, 0)] }) := by
  intro t d h0
  refine ⟨⟨?_, ?_⟩, ?_, ?_, ?_⟩
  · rintro ⟨t1, ht1⟩
    unfold PrositCore.insert_deadline at ht1
    rw [if_neg h0] at ht1
    split_ifs at ht1 with hmod hdup
    · exact ⟨not_not.mp hmod, Option.not_isSome_iff_eq_none.mp (by simpa using hdup)⟩
  · rintro ⟨hmod, hl⟩
    unfold PrositCore.insert_deadline
    rw [if_neg h0, if_neg (not_not_intro hmod), hl]
    exact ⟨_, rfl⟩
  · intro hmod
    unfold PrositCore.insert_deadline
    rw [if_neg h0, if_pos hmod]
  · intro hmod hdup
    unfold PrositCore.insert_deadline
    rw [if_neg h0, if_neg (not_not_intro hmod), if_pos hdup]
  · intro t1 ht1
    unfold PrositCore.insert_deadline at ht1
    rw [if_neg h0] at ht1
    split_ifs at ht1
    simp only [Except.ok.injEq] at ht1
    exact ht1.symm

/-- C3 witness: at a concrete task with `deadline_step = 2`, inserting the
non-multiple 3 raises the wrong-deadline error, and inserting the fresh
multiple 4 appends `(4, 0)` while changing nothing else. -/
theorem C3_insert_deadline_guard_witness :
    PrositCore.insert_deadline ⟨"tau", 2, [(2, 0)], false, false⟩ 3 =
      .error (.exc ("Wrong deadline values set for task " ++ "tau")) ∧
    (PrositCore.insert_deadline ⟨"tau", 2, [(2, 0)], false, false⟩ 4 =
        .ok ⟨"tau", 2, [(2, 0), (4, 0)], false, false⟩ →
      (⟨"tau", 2, [(2, 0), (4, 0)], false, false⟩ : PrositCore.Task) =
        { (⟨"tau", 2, [(2, 0)], false, false⟩ : PrositCore.Task) with
            probabilistic_deadlines := [(2, 0)] ++ [(4, 0)] }) :=
  ⟨((C3_insert_deadline_guard ⟨"tau", 2, [(2, 0)], false, false⟩ 3
      (by decide)).2.1 (by decide)),
   fun h => (C3_insert_deadline_guard ⟨"tau", 2, [(2, 0)], false, false⟩ 4
      (by decide)).2.2.2 _ h⟩
